import Mathlib

/-!
Shallow embedding of the voice-assistant web client (frontend of
`voice-assistant-web-app`): the agent store, the WebSocket protocol
handlers, the utterance rate limiter, the PCM/WAV encoder, the
microphone capture hook and the application-level turn state machine,
together with theorems settling the specification claims about them.

Sources embedded:
  - `src/frontend/src/types/index.ts` (state and message types)
  - `src/frontend/src/store/agentStore.ts` (the Zustand store)
  - `src/frontend/src/utils/websocket.ts` (`checkRateLimit`,
    `handleWebSocketMessage`, `sendAudioUtterance`)
  - `src/frontend/src/utils/audio.ts` (`encodeWAV` and byte writers)
  - `src/frontend/src/hooks/useMicrophone.ts` (capture hook)
  - `src/frontend/src/App.tsx` (turn state machine handlers)
  - the `useWebSocket` hook (connection lifecycle with reconnection)

JavaScript numbers on the audio path are modelled as exact rationals;
machine integers produced by the bitwise byte writers are modelled with
explicit truncation and `emod`/`fdiv`, matching JavaScript `ToInt32`,
`& 0xff` and `>> 8` semantics on the value ranges that occur.
-/

namespace VoiceApp

/-- Agent turn states, from `types/index.ts`:
`idle | listening | thinking | speaking | error`. -/
inductive AgentState where
  | idle
  | listening
  | thinking
  | speaking
  | error
deriving DecidableEq

/-- Transcript entry role: `user | agent`. -/
inductive Role where
  | user
  | agent
deriving DecidableEq

/-- Structure `TranscriptItem` from `types/index.ts`. -/
structure TranscriptItem where
  id : String
  role : Role
  text : String
  timestamp : Int
  isFinal : Bool
deriving DecidableEq

/-- The Zustand agent store (`store/agentStore.ts`), holding the fields the
embedded handlers read and write.  `isListening` is the listening flag the
`App` component keeps in the store (documented in the frontend
implementation checklist as an addition to `agentStore`). -/
structure AgentStore where
  agentState : AgentState
  transcript : List TranscriptItem
  isConnected : Bool
  error : Option String
  microphoneAmplitude : ℚ
  isMicrophoneActive : Bool
  isListening : Bool
deriving DecidableEq

/-- Initial store state from `agentStore.ts` (`agentState: idle`,
empty transcript, disconnected, no error, amplitude 0, mic inactive). -/
def initialStore : AgentStore :=
  { agentState := AgentState.idle
    transcript := []
    isConnected := false
    error := none
    microphoneAmplitude := 0
    isMicrophoneActive := false
    isListening := false }

/-- The `addTranscriptItem` action of `agentStore.ts`: appends the item. -/
def addTranscriptItem (item : TranscriptItem) (s : AgentStore) : AgentStore :=
  { s with transcript := s.transcript ++ [item] }

/-- A server→client message as the duck-typed JSON the handler dispatches
on: an `event` tag plus the optional fields the handler reads. -/
structure ServerMessage where
  event : String
  text : Option String := none
  data : Option String := none
  message : Option String := none
  errorField : Option String := none
  code : Option Int := none
deriving DecidableEq

/-- JavaScript `a || b` on strings: an absent or empty string is falsy. -/
def jsStringOr (a : Option String) (fallback : String) : String :=
  match a with
  | some s => if s = "" then fallback else s
  | none => fallback

/-- JavaScript truthiness of an optional string (`if (message.text)`). -/
def jsTruthy (a : Option String) : Bool :=
  match a with
  | some s => s ≠ ""
  | none => false

/-- Function `handleWebSocketMessage` from `utils/websocket.ts`.  Here `now` stands for
`Date.now()` at handling time.  The asynchronous completion of
`playAudio` (which later sets the state back to `idle`) is modelled by a
separate `playbackEnded` event in the application machine; this function
captures the store mutations the handler performs synchronously. -/
def handleWebSocketMessage (now : Int) (m : ServerMessage) (s : AgentStore) :
    AgentStore :=
  if m.event = "ready" then s
  else if m.event = "transcript_partial" then
    if jsTruthy m.text then
      addTranscriptItem
        { id := ("transcript-" ++ toString now)
          role := Role.user
          text := jsStringOr m.text ("")
          timestamp := now
          isFinal := false } s
    else s
  else if m.event = "transcript_final" then
    if jsTruthy m.text then
      addTranscriptItem
        { id := ("transcript-" ++ toString now)
          role := Role.user
          text := jsStringOr m.text ("")
          timestamp := now
          isFinal := true } s
    else s
  else if m.event = "audio_response" then
    let s1 := { s with agentState := AgentState.speaking }
    if jsTruthy m.data then s1
    else if jsTruthy m.text then
      { addTranscriptItem
          { id := ("agent-" ++ toString now)
            role := Role.agent
            text := jsStringOr m.text ("")
            timestamp := now
            isFinal := true } s1 with
        agentState := AgentState.idle }
    else s1
  else if m.event = "error" then
    let errorMsg := jsStringOr m.message
      (jsStringOr m.errorField ("Unknown error occurred"))
    { s with error := some errorMsg, agentState := AgentState.error }
  else s

/-- Function `checkRateLimit` from `utils/websocket.ts`, made pure: the module
state `utteranceTimestamps` becomes an explicit argument and result.
Keeps timestamps `ts > now - 60000`, rejects when 10 remain, otherwise
records `now`. -/
def checkRateLimit (timestamps : List Int) (now : Int) : Bool × List Int :=
  let kept := timestamps.filter (fun ts => now - 60000 < ts)
  if 10 ≤ kept.length then (false, kept)
  else (true, kept ++ [now])

/-- Iterated rate-limiter checks: the outcomes of a sequence of
submission attempts at the given times, threading the timestamp window
exactly as the module-level `utteranceTimestamps` variable is threaded
between calls. -/
def rateResults (timestamps : List Int) : List Int → List Bool
  | [] => []
  | t :: ts =>
    let r := checkRateLimit timestamps t
    r.1 :: rateResults r.2 ts

/-- An `audio_utterance` client message as built by `sendAudioUtterance`. -/
structure ClientUtteranceMsg where
  audio : String
  duration_ms : Int
deriving DecidableEq

/-- State visible to `sendAudioUtterance`: the socket (only: whether its
`readyState` is `OPEN`), the module-level rate-limiter window, the agent
store, and the trace of utterance messages passed to `ws.send`. -/
structure WSClient where
  wsOpen : Bool
  timestamps : List Int
  store : AgentStore
  sent : List ClientUtteranceMsg
deriving DecidableEq

/-- Function `sendAudioUtterance` from `utils/websocket.ts`: refuses when the
socket is not open; refuses (and sets a rate-limit error) when
`checkRateLimit` rejects; otherwise sends the message and sets the agent
state to `thinking`.  Returns the boolean result together with the
updated state. -/
def sendAudioUtterance (s : WSClient) (now : Int) (base64WavData : String)
    (durationMs : Int) : Bool × WSClient :=
  if ¬ s.wsOpen then (false, s)
  else
    let r := checkRateLimit s.timestamps now
    if ¬ r.1 then
      (false,
        { s with
          timestamps := r.2
          store := { s.store with
            error := some ("Rate limited: Max 10 utterances per minute") } })
    else
      (true,
        { s with
          timestamps := r.2
          sent := s.sent ++ [{ audio := base64WavData, duration_ms := durationMs }]
          store := { s.store with agentState := AgentState.thinking } })

/-- Truncation of a rational toward zero, the effect of JavaScript
`ToInt32` on a (small-range) non-integral number, as performed by the
bitwise operators in `writeInt16LE`. -/
def truncQ (q : ℚ) : Int :=
  if 0 ≤ q then ⌊q⌋ else -⌊-q⌋

/-- JavaScript `Math.round`: round half away from zero upward. -/
def jsRound (q : ℚ) : Int :=
  ⌊q + 1 / 2⌋

/-- The two little-endian bytes `writeInt16LE` (from `utils/audio.ts`)
stores for an integer value: `value & 0xff` and `(value >> 8) & 0xff`
(JavaScript bitwise semantics: arithmetic shift is floor division, and
`& 0xff` is a nonnegative remainder). -/
def writeInt16LEInt (v : Int) : List Nat :=
  [(Int.emod v 256).toNat, (Int.emod (Int.fdiv v 256) 256).toNat]

/-- The four little-endian bytes `writeInt32LE` (from `utils/audio.ts`)
stores for a (nonnegative) header value. -/
def writeInt32LE (v : Nat) : List Nat :=
  [v % 256, v / 256 % 256, v / 65536 % 256, v / 16777216 % 256]

/-- The scaled 16-bit integer `encodeWAV` computes for one sample:
`Math.max(-1, Math.min(1, samples[i])) * volume` with `volume = 0.8`,
then `sample < 0 ? sample * 0x8000 : sample * 0x7fff`, truncated toward
zero by the bitwise operators of the byte writer. -/
def sampleToInt16 (s : ℚ) : Int :=
  let sample := max (-1) (min 1 s) * (8 / 10)
  if sample < 0 then truncQ (sample * 32768) else truncQ (sample * 32767)

/-- The 44 header bytes `encodeWAV` writes at offsets 0–43: the RIFF
chunk descriptor, the `fmt ` sub-chunk (format tag 1, channel count,
sample rate, byte rate, block align, bit depth) and the `data` sub-chunk
header whose final field is the payload byte count. -/
def wavHeader (numSamples sampleRate numChannels bitDepth : Nat) : List Nat :=
  let bytesPerSample := bitDepth / 8
  let blockAlign := numChannels * bytesPerSample
  [82, 73, 70, 70]
    ++ writeInt32LE (36 + numSamples * bytesPerSample)
    ++ [87, 65, 86, 69]
    ++ [102, 109, 116, 32]
    ++ writeInt32LE 16
    ++ writeInt16LEInt 1
    ++ writeInt16LEInt numChannels
    ++ writeInt32LE sampleRate
    ++ writeInt32LE (sampleRate * blockAlign)
    ++ writeInt16LEInt blockAlign
    ++ writeInt16LEInt bitDepth
    ++ [100, 97, 116, 97]
    ++ writeInt32LE (numSamples * bytesPerSample)

/-- Function `encodeWAV` from `utils/audio.ts` as the byte sequence of the
produced blob: the 44-byte header followed by the clamped, attenuated,
scaled samples, two bytes each (the source writes these fields at
consecutive offsets of a `Uint8Array`, here read back as the
concatenation). -/
def encodeWAV (samples : List ℚ) (sampleRate numChannels bitDepth : Nat) :
    List Nat :=
  wavHeader samples.length sampleRate numChannels bitDepth
    ++ (samples.map (fun s => writeInt16LEInt (sampleToInt16 s))).flatten

/-- Modelled from the spec: `resampleAudio` is imported by
`useMicrophone.ts` from `utils/audio.ts` but its definition is absent
from the sources; spec §4.1 specifies deterministic linear-interpolation
resampling from a source rate to a destination rate. -/
def resampleAudio (samples : List ℚ) (srcRate dstRate : Nat) : List ℚ :=
  if srcRate = dstRate ∨ dstRate = 0 ∨ srcRate = 0 then samples
  else
    let newLength := samples.length * dstRate / srcRate
    (List.range newLength).map (fun i =>
      let pos : ℚ := (i : ℚ) * srcRate / dstRate
      let i0 := (⌊pos⌋).toNat
      let frac := pos - (i0 : ℚ)
      let s0 := samples.getD i0 0
      let s1 := samples.getD (i0 + 1) s0
      s0 + (s1 - s0) * frac)

/-- The utterance buffer of `useMicrophone.ts` (`bufferRef`). -/
structure MicBuffer where
  chunks : List (List ℚ)
  totalSamples : Nat
  startTime : Int
deriving DecidableEq

/-- The reset buffer value `{ chunks: [], totalSamples: 0, startTime: 0 }`. -/
def emptyBuffer : MicBuffer :=
  { chunks := [], totalSamples := 0, startTime := 0 }

/-- The refs of `useMicrophone.ts`: device and audio-graph references
(modelled by whether each ref is non-null), the sample rate of the open
audio context, the recording flag and the buffered audio. -/
structure MicState where
  mediaStream : Bool
  processor : Bool
  analyser : Bool
  audioContext : Bool
  ctxSampleRate : Nat
  isRecording : Bool
  isInitialized : Bool
  buffer : MicBuffer
deriving DecidableEq

/-- Initial microphone state: every ref null, nothing buffered. -/
def initMic : MicState :=
  { mediaStream := false
    processor := false
    analyser := false
    audioContext := false
    ctxSampleRate := 44100
    isRecording := false
    isInitialized := false
    buffer := emptyBuffer }

/-- A finalized utterance as handed to `onUtterance`: the WAV bytes
(the source base64-encodes them for transport; the transport encoding is
left as the byte sequence itself) and the computed duration. -/
structure Utterance where
  audioBytes : List Nat
  durationMs : Int
deriving DecidableEq

/-- Function `finializeUtterance` from `useMicrophone.ts` (source spelling kept):
returns early when no `onUtterance` callback is registered or the buffer
is empty; otherwise concatenates the buffered chunks (the source copies
them at consecutive offsets of a combined array sized by
`totalSamples`, equal to the concatenation since `totalSamples` is
maintained as the sum of chunk lengths), resamples to 16 kHz when the
context rate differs (`audioContextRef.current?.sampleRate || 44100`),
encodes to WAV, computes the duration, emits the utterance and resets
the buffer. -/
def finializeUtterance (hasOnUtterance : Bool) (mic : MicState) :
    Option Utterance × MicState :=
  if ¬ hasOnUtterance ∨ mic.buffer.chunks.isEmpty then (none, mic)
  else
    let combinedSamples := mic.buffer.chunks.flatten
    let currentSampleRate := if mic.audioContext then mic.ctxSampleRate else 44100
    let finalSamples :=
      if currentSampleRate ≠ 16000 then
        resampleAudio combinedSamples currentSampleRate 16000
      else combinedSamples
    (some
      { audioBytes := encodeWAV finalSamples 16000 1 16
        durationMs := jsRound ((finalSamples.length : ℚ) / 16000 * 1000) },
     { mic with buffer := emptyBuffer })

/-- Function `startMicrophone` from `useMicrophone.ts`.  Here `ok` is whether
`getUserMedia` grants the device (the hook catches a denial internally
and only sets a store error, without rethrowing); `rate` is the sample
rate of the created audio context.  On success every ref is populated,
recording starts and the store mic flag is set. -/
def startMicrophone (ok : Bool) (rate : Nat) (mic : MicState)
    (store : AgentStore) : MicState × AgentStore :=
  if ok then
    ({ mic with
        mediaStream := true
        audioContext := true
        ctxSampleRate := rate
        analyser := true
        processor := true
        isRecording := true
        isInitialized := true },
     { store with isMicrophoneActive := true })
  else
    (mic, { store with error := some ("Microphone access denied") })

/-- Function `stopMicrophone` from `useMicrophone.ts`: clears the recording flag,
stops and nulls every device/graph ref, and resets the store mic flag
and amplitude.  The buffered audio is not cleared here. -/
def stopMicrophone (mic : MicState) (store : AgentStore) :
    MicState × AgentStore :=
  ({ mic with
      isRecording := false
      mediaStream := false
      processor := false
      analyser := false
      audioContext := false
      isInitialized := false },
   { store with isMicrophoneActive := false, microphoneAmplitude := 0 })

/-- The `processor.onaudioprocess` callback while the `App` component is
the consumer (`onAudioChunk` is not passed, so the per-chunk streaming
branch is inactive): ignores the frame when not recording, otherwise
records the measured frame RMS as the amplitude and appends the chunk to
the buffer.  The RMS value (a floating-point square root in the source)
is supplied with the frame event; no claim depends on its value. -/
def onAudioProcess (chunk : List ℚ) (rmsVal : ℚ) (mic : MicState)
    (store : AgentStore) : MicState × AgentStore :=
  if ¬ mic.isRecording then (mic, store)
  else
    ({ mic with
        buffer :=
          { chunks := mic.buffer.chunks ++ [chunk]
            totalSamples := mic.buffer.totalSamples + chunk.length
            startTime := mic.buffer.startTime } },
     { store with microphoneAmplitude := rmsVal })

/-- The whole client state the `App` component orchestrates: the agent
store, the microphone hook state, the `micActiveRef` flag, and the
`useWebSocket` connection state (socket open, reconnection attempt
counter, and the delay of a reconnection scheduled by `setTimeout`, if
any). -/
structure AppState where
  store : AgentStore
  mic : MicState
  micActiveRef : Bool
  wsOpen : Bool
  reconnectAttempts : Nat
  reconnectDelay : Option Int
deriving DecidableEq

/-- External events driving the client: socket lifecycle, user actions,
server messages, playback completion and capture frames. -/
inductive AppEvent where
  | wsOpened
  | wsClosed
  | startListen (micOk : Bool) (rate : Nat)
  | stopListen
  | interrupt
  | clear
  | serverMsg (now : Int) (m : ServerMessage)
  | playbackEnded
  | micFrame (chunk : List ℚ) (rmsVal : ℚ)

/-- Function `handleStartListen` from `App.tsx`: rejected when not connected;
rejected with the user-facing busy signal when the agent is speaking;
otherwise marks listening and starts the microphone. -/
def handleStartListen (micOk : Bool) (rate : Nat) (s : AppState) : AppState :=
  if ¬ s.store.isConnected then
    { s with store :=
        { s.store with error := some ("Not connected - please refresh") } }
  else if s.store.agentState = AgentState.speaking then
    { s with store :=
        { s.store with error := some ("Wait for agent to finish speaking") } }
  else
    let st1 := { s.store with
      isListening := true
      agentState := AgentState.listening
      error := none }
    let r := startMicrophone micOk rate s.mic st1
    { s with micActiveRef := true, mic := r.1, store := r.2 }

/-- Function `handleStopListen` from `App.tsx` delegates to `forceFinalize` of
`useMicrophone.ts`, which clears the recording flag and calls
`stopMicrophone` (the `finializeUtterance` of the hook is not invoked on this
path in the embedded snapshot). -/
def handleStopListen (s : AppState) : AppState :=
  let r := stopMicrophone s.mic s.store
  { s with mic := r.1, store := r.2 }

/-- Function `handleInterrupt` from `App.tsx`: hard-stops capture and resets the
turn state to idle. -/
def handleInterrupt (s : AppState) : AppState :=
  let r := stopMicrophone s.mic s.store
  { s with
    micActiveRef := false
    mic := r.1
    store := { r.2 with
      isListening := false
      agentState := AgentState.idle
      error := none } }

/-- Function `handleClear` from `App.tsx`: clears the transcript and resets the
turn state (the microphone itself is not stopped here). -/
def handleClear (s : AppState) : AppState :=
  { s with
    micActiveRef := false
    store := { s.store with
      transcript := []
      agentState := AgentState.idle
      error := none
      isListening := false } }

/-- The `useWebSocket` `onopen` handler: marks connected, clears the
error and resets the reconnection counter (it also sends the `init`
message over the transport). -/
def wsOnOpen (s : AppState) : AppState :=
  { s with
    wsOpen := true
    reconnectAttempts := 0
    store := { s.store with isConnected := true, error := none } }

/-- The `useWebSocket` `onclose` handler followed by the `App`
`onDisconnect` callback: marks disconnected, resets the turn state to
idle, kills the microphone when `micActiveRef` was set, and — when fewer
than `maxReconnectAttempts = 5` attempts were made — schedules
`connect` again after `min(1000 * 2^attempts, 30000)` ms. -/
def wsOnClose (s : AppState) : AppState :=
  let st1 := { s.store with
    isConnected := false
    agentState := AgentState.idle }
  let r := if s.micActiveRef then stopMicrophone s.mic st1 else (s.mic, st1)
  if s.reconnectAttempts < 5 then
    { s with
      wsOpen := false
      mic := r.1
      store := r.2
      reconnectAttempts := s.reconnectAttempts + 1
      reconnectDelay := some (min (1000 * 2 ^ (s.reconnectAttempts + 1)) 30000) }
  else
    { s with
      wsOpen := false
      mic := r.1
      store := { r.2 with
        error := some ("Failed to connect to server after multiple attempts. Please refresh.") } }

/-- One step of the client state machine. -/
def appStep : AppEvent → AppState → AppState
  | AppEvent.wsOpened, s => wsOnOpen s
  | AppEvent.wsClosed, s => wsOnClose s
  | AppEvent.startListen ok rate, s => handleStartListen ok rate s
  | AppEvent.stopListen, s => handleStopListen s
  | AppEvent.interrupt, s => handleInterrupt s
  | AppEvent.clear, s => handleClear s
  | AppEvent.serverMsg now m, s =>
      { s with store := handleWebSocketMessage now m s.store }
  | AppEvent.playbackEnded, s =>
      { s with store := { s.store with agentState := AgentState.idle } }
  | AppEvent.micFrame chunk rmsVal, s =>
      let r := onAudioProcess chunk rmsVal s.mic s.store
      { s with mic := r.1, store := r.2 }

/-- The freshly-mounted client: initial store, no device refs, socket not
yet open. -/
def appInit : AppState :=
  { store := initialStore
    mic := initMic
    micActiveRef := false
    wsOpen := false
    reconnectAttempts := 0
    reconnectDelay := none }

/-- Run the client over a sequence of events from the initial state. -/
def runApp (events : List AppEvent) : AppState :=
  events.foldl (fun s e => appStep e s) appInit

/-! ## Claim theorems -/

/-- C10: `stopMicrophone` is idempotent: applying it twice yields the
same state as applying it once — every device/context reference null,
`isMicrophoneActive` false, `microphoneAmplitude` 0 — and the second
call performs no further state change. -/
theorem stopMicrophone_idempotent (mic : MicState) (store : AgentStore) :
    stopMicrophone (stopMicrophone mic store).1 (stopMicrophone mic store).2
      = stopMicrophone mic store
    ∧ (stopMicrophone mic store).1.mediaStream = false
    ∧ (stopMicrophone mic store).1.processor = false
    ∧ (stopMicrophone mic store).1.analyser = false
    ∧ (stopMicrophone mic store).1.audioContext = false
    ∧ (stopMicrophone mic store).1.isRecording = false
    ∧ (stopMicrophone mic store).1.isInitialized = false
    ∧ (stopMicrophone mic store).2.isMicrophoneActive = false
    ∧ (stopMicrophone mic store).2.microphoneAmplitude = 0 :=
  ⟨rfl, rfl, rfl, rfl, rfl, rfl, rfl, rfl, rfl⟩

/-- C4: a capture-start request while the agent is `speaking` is
rejected: the turn state stays `speaking`, the microphone state and the
store capture flag are untouched, and a user-facing error signal is set. -/
theorem handleStartListen_rejected_while_speaking (s : AppState)
    (micOk : Bool) (rate : Nat)
    (h : s.store.agentState = AgentState.speaking) :
    (handleStartListen micOk rate s).store.agentState = AgentState.speaking
    ∧ (handleStartListen micOk rate s).mic = s.mic
    ∧ (handleStartListen micOk rate s).store.isMicrophoneActive
        = s.store.isMicrophoneActive
    ∧ (handleStartListen micOk rate s).micActiveRef = s.micActiveRef
    ∧ (handleStartListen micOk rate s).store.isListening = s.store.isListening
    ∧ ((handleStartListen micOk rate s).store.error).isSome = true := by
  by_cases hc : s.store.isConnected <;>
    simp [handleStartListen, hc, h]

/-- Witness for C4 at a concrete connected, speaking state. -/
theorem handleStartListen_rejected_while_speaking_witness :
    (handleStartListen true 48000
        { appInit with store :=
            { initialStore with
              agentState := AgentState.speaking
              isConnected := true } }).store.agentState = AgentState.speaking
    ∧ (handleStartListen true 48000
        { appInit with store :=
            { initialStore with
              agentState := AgentState.speaking
              isConnected := true } }).mic
        = ({ appInit with store :=
              { initialStore with
                agentState := AgentState.speaking
                isConnected := true } } : AppState).mic
    ∧ (handleStartListen true 48000
        { appInit with store :=
            { initialStore with
              agentState := AgentState.speaking
              isConnected := true } }).store.isMicrophoneActive
        = ({ appInit with store :=
              { initialStore with
                agentState := AgentState.speaking
                isConnected := true } } : AppState).store.isMicrophoneActive
    ∧ (handleStartListen true 48000
        { appInit with store :=
            { initialStore with
              agentState := AgentState.speaking
              isConnected := true } }).micActiveRef
        = ({ appInit with store :=
              { initialStore with
                agentState := AgentState.speaking
                isConnected := true } } : AppState).micActiveRef
    ∧ (handleStartListen true 48000
        { appInit with store :=
            { initialStore with
              agentState := AgentState.speaking
              isConnected := true } }).store.isListening
        = ({ appInit with store :=
              { initialStore with
                agentState := AgentState.speaking
                isConnected := true } } : AppState).store.isListening
    ∧ ((handleStartListen true 48000
        { appInit with store :=
            { initialStore with
              agentState := AgentState.speaking
              isConnected := true } }).store.error).isSome = true :=
  handleStartListen_rejected_while_speaking _ true 48000 rfl

/-- C9: a server message whose tag is none of the five known events
leaves the agent store entirely unchanged. -/
theorem handleWebSocketMessage_unknown_tag (now : Int) (m : ServerMessage)
    (s : AgentStore)
    (h1 : m.event ≠ "ready") (h2 : m.event ≠ "transcript_partial")
    (h3 : m.event ≠ "transcript_final") (h4 : m.event ≠ "audio_response")
    (h5 : m.event ≠ "error") :
    handleWebSocketMessage now m s = s := by
  simp [handleWebSocketMessage, h1, h2, h3, h4, h5]

/-- Witness for C9 at the concrete unknown tag `status`. -/
theorem handleWebSocketMessage_unknown_tag_witness :
    handleWebSocketMessage 0 { event := "status" } initialStore
      = initialStore :=
  handleWebSocketMessage_unknown_tag 0 { event := "status" } initialStore
    (by decide) (by decide) (by decide) (by decide) (by decide)

/-- C6: on a zero-length sample array the encoder emits exactly the
44-byte container header, whose final field (the data-chunk size at
offsets 40–43) is 0, with no sample bytes after it. -/
theorem encodeWAV_empty_header_only (rate : Nat) :
    encodeWAV [] rate 1 16
      = [82, 73, 70, 70] ++ writeInt32LE 36 ++ [87, 65, 86, 69]
        ++ [102, 109, 116, 32] ++ writeInt32LE 16 ++ writeInt16LEInt 1
        ++ writeInt16LEInt 1 ++ writeInt32LE rate ++ writeInt32LE (rate * 2)
        ++ writeInt16LEInt 2 ++ writeInt16LEInt 16 ++ [100, 97, 116, 97]
        ++ writeInt32LE 0
    ∧ (encodeWAV [] rate 1 16).length = 44
    ∧ (encodeWAV [] rate 1 16).drop 40 = [0, 0, 0, 0] :=
  ⟨rfl, rfl, rfl⟩

/-- C1, counterexample: with the socket open and the rate window clear, a
first utterance is accepted and leaves the agent in `thinking` (one
utterance sent, awaiting its response); a second `sendAudioUtterance`
issued while that response is still outstanding (no server message has
been handled in between) is accepted and sent as well, not rejected. -/
theorem sendAudioUtterance_second_inflight_accepted :
    (sendAudioUtterance
        { wsOpen := true, timestamps := [],
          store := { initialStore with isConnected := true }, sent := [] }
        0 ("utterance-one") 500).1 = true
    ∧ (sendAudioUtterance
        { wsOpen := true, timestamps := [],
          store := { initialStore with isConnected := true }, sent := [] }
        0 ("utterance-one") 500).2.store.agentState = AgentState.thinking
    ∧ (sendAudioUtterance
        ((sendAudioUtterance
          { wsOpen := true, timestamps := [],
            store := { initialStore with isConnected := true }, sent := [] }
          0 ("utterance-one") 500).2)
        1000 ("utterance-two") 500).1 = true
    ∧ (sendAudioUtterance
        ((sendAudioUtterance
          { wsOpen := true, timestamps := [],
            store := { initialStore with isConnected := true }, sent := [] }
          0 ("utterance-one") 500).2)
        1000 ("utterance-two") 500).2.sent.length = 2 := by
  decide

/-- C1, amended: `sendAudioUtterance` performs no in-flight check at
all — it accepts exactly when the socket is open and the rate-limiter
window (after eviction) holds fewer than 10 timestamps, and on
acceptance the message is appended to the sent trace. -/
theorem sendAudioUtterance_accepts_iff (s : WSClient) (now : Int)
    (d : String) (dur : Int) :
    (sendAudioUtterance s now d dur).1
      = (s.wsOpen
          && decide ((s.timestamps.filter
                (fun ts => now - 60000 < ts)).length < 10))
    ∧ (sendAudioUtterance s now d dur).2.sent
      = (if (sendAudioUtterance s now d dur).1 = true
         then s.sent ++ [{ audio := d, duration_ms := dur }]
         else s.sent) := by
  by_cases hw : s.wsOpen
  · by_cases hl :
      10 ≤ (s.timestamps.filter (fun ts => now - 60000 < ts)).length
    · simp [sendAudioUtterance, checkRateLimit, hw, hl, Nat.not_lt.mpr hl]
    · simp [sendAudioUtterance, checkRateLimit, hw, hl,
        Nat.lt_of_not_le hl]
  · simp [sendAudioUtterance, hw]

/-- C2, failing trace: the user starts listening (capture becomes active
in state `listening`), then the server delivers an `error` event; the
message handler moves the turn state to `error` but never stops the
microphone, so capture remains active outside `listening` — violating
the `App.tsx` header contract that the mic is only active during the
listening state. -/
theorem capture_active_outside_listening :
    (runApp [AppEvent.wsOpened, AppEvent.startListen true 48000,
      AppEvent.serverMsg 5
        { event := "error", message := some ("Internal STT failure") }]
      ).store.isMicrophoneActive = true
    ∧ (runApp [AppEvent.wsOpened, AppEvent.startListen true 48000,
        AppEvent.serverMsg 5
          { event := "error", message := some ("Internal STT failure") }]
        ).mic.mediaStream = true
    ∧ (runApp [AppEvent.wsOpened, AppEvent.startListen true 48000,
        AppEvent.serverMsg 5
          { event := "error", message := some ("Internal STT failure") }]
        ).mic.isRecording = true
    ∧ (runApp [AppEvent.wsOpened, AppEvent.startListen true 48000,
        AppEvent.serverMsg 5
          { event := "error", message := some ("Internal STT failure") }]
        ).store.agentState = AgentState.error := by
  decide

/-- C8, failing trace: after the transport closes (first close, zero
prior attempts) the `useWebSocket` `onclose` handler schedules a silent
reconnection via `setTimeout(connect, 2000)` with no user- or
application-initiated request — and the scheduled `connect` sends `init`
itself from `onopen` — contradicting the `App.tsx` contract that the
socket is created once and never reconnects automatically. -/
theorem reconnect_scheduled_without_user_init :
    (runApp [AppEvent.wsOpened, AppEvent.wsClosed]).reconnectDelay
      = some 2000
    ∧ (runApp [AppEvent.wsOpened, AppEvent.wsClosed]).reconnectAttempts = 1
    ∧ (runApp [AppEvent.wsOpened, AppEvent.wsClosed]).store.isConnected
      = false := by
  decide

/-- In a burst whose times all lie inside one window starting at `t0`,
and whose current window entries are all `≥ t0`, no timestamp is ever
evicted, so the limiter accepts exactly until the window holds 10
entries and rejects every later attempt. -/
theorem rateResults_in_window (t0 : Int) (ts : List Int) :
    ∀ w : List Int, (∀ x ∈ w, t0 ≤ x) →
    (∀ t ∈ ts, t0 ≤ t ∧ t < t0 + 60000) →
    rateResults w ts
      = List.replicate (min ts.length (10 - w.length)) true
        ++ List.replicate (ts.length - (10 - w.length)) false := by
  induction ts with
  | nil => intro w hw hts; simp [rateResults]
  | cons t ts ih =>
    intro w hw hts
    have ht : t0 ≤ t ∧ t < t0 + 60000 := hts t (List.mem_cons_self t ts)
    have hkeep : w.filter (fun x => decide (t - 60000 < x)) = w := by
      apply List.filter_eq_self.mpr
      intro a ha
      have := hw a ha
      simp only [decide_eq_true_eq]
      omega
    have hts' : ∀ x ∈ ts, t0 ≤ x ∧ x < t0 + 60000 := by
      intro x hx
      exact hts x (List.mem_cons_of_mem t hx)
    by_cases hlen : 10 ≤ w.length
    · have h1 : rateResults w (t :: ts) = false :: rateResults w ts := by
        simp [rateResults, checkRateLimit, hkeep, hlen]
      have h2 : 10 - w.length = 0 := by omega
      rw [h1, ih w hw hts', h2]
      simp [List.replicate_succ]
    · have h1 : rateResults w (t :: ts)
          = true :: rateResults (w ++ [t]) ts := by
        simp [rateResults, checkRateLimit, hkeep, hlen]
      have hw' : ∀ x ∈ w ++ [t], t0 ≤ x := by
        intro x hx
        rcases List.mem_append.mp hx with h | h
        · exact hw x h
        · simp only [List.mem_singleton] at h
          omega
      have e1 : min (ts.length + 1) (10 - w.length)
          = min ts.length (10 - (w ++ [t]).length) + 1 := by
        simp only [List.length_append, List.length_singleton]
        omega
      have e2 : (ts.length + 1) - (10 - w.length)
          = ts.length - (10 - (w ++ [t]).length) := by
        simp only [List.length_append, List.length_singleton]
        omega
      rw [h1, ih (w ++ [t]) hw' hts']
      simp only [List.length_cons, e1, e2, List.replicate_succ,
        List.cons_append]

/-- C3: `checkRateLimit` first evicts timestamps outside the 60 s window
(keeping exactly those newer than `now - 60000`), accepts and records
`now` exactly when fewer than 10 remain, and rejects otherwise; hence in
any burst of submissions inside a single window, the first 10 are
accepted and the 11th and later are rejected. -/
theorem checkRateLimit_spec :
    (∀ (w : List Int) (now : Int),
      (checkRateLimit w now).1
        = decide ((w.filter (fun ts => now - 60000 < ts)).length < 10)
      ∧ (checkRateLimit w now).2
        = (if (w.filter (fun ts => now - 60000 < ts)).length < 10
           then w.filter (fun ts => now - 60000 < ts) ++ [now]
           else w.filter (fun ts => now - 60000 < ts)))
    ∧ (∀ (t0 : Int) (ts : List Int),
      (∀ t ∈ ts, t0 ≤ t ∧ t < t0 + 60000) →
      rateResults [] ts
        = List.replicate (min ts.length 10) true
          ++ List.replicate (ts.length - 10) false) := by
  constructor
  · intro w now
    by_cases h : (w.filter (fun ts => now - 60000 < ts)).length < 10
    · have h' : ¬ 10 ≤ (w.filter (fun ts => now - 60000 < ts)).length := by
        omega
      simp [checkRateLimit, h, h']
    · have h' : 10 ≤ (w.filter (fun ts => now - 60000 < ts)).length := by
        omega
      simp [checkRateLimit, h, h']
  · intro t0 ts hts
    have := rateResults_in_window t0 ts [] (by simp) hts
    simpa using this

/-- Witness for C3: a burst of twelve submissions at times 0…11 from an
empty window: the first ten are accepted, the last two rejected. -/
theorem checkRateLimit_spec_witness :
    rateResults [] [0, 1, 2, 3, 4, 5, 6, 7, 8, 9, 10, 11]
      = List.replicate
          (min ([0, 1, 2, 3, 4, 5, 6, 7, 8, 9, 10, 11] : List Int).length 10)
          true
        ++ List.replicate
          (([0, 1, 2, 3, 4, 5, 6, 7, 8, 9, 10, 11] : List Int).length - 10)
          false :=
  checkRateLimit_spec.2 0 [0, 1, 2, 3, 4, 5, 6, 7, 8, 9, 10, 11] (by decide)

/-- C7, failing trace: capture is started at a 16 kHz context; a silence
frame, a short speech frame and another silence frame (80 samples each)
are buffered — 240 samples total, i.e. 15 ms, far below any minimum
utterance duration (the spec example uses `minUtteranceDurationMs =
300`; `240 * 1000 < 300 * 16000` is that comparison cross-multiplied).
Finalization nevertheless emits one utterance instead of discarding the
buffer: the hook has no minimum-duration rule (and buffers silence
frames like speech). -/
theorem short_burst_still_emitted :
    (finializeUtterance true
      (runApp [AppEvent.wsOpened, AppEvent.startListen true 16000,
        AppEvent.micFrame (List.replicate 80 0) 0,
        AppEvent.micFrame (List.replicate 80 (1 / 2)) (1 / 2),
        AppEvent.micFrame (List.replicate 80 0) 0]).mic).1.isSome = true
    ∧ (runApp [AppEvent.wsOpened, AppEvent.startListen true 16000,
        AppEvent.micFrame (List.replicate 80 0) 0,
        AppEvent.micFrame (List.replicate 80 (1 / 2)) (1 / 2),
        AppEvent.micFrame (List.replicate 80 0) 0]
        ).mic.buffer.totalSamples = 240
    ∧ (runApp [AppEvent.wsOpened, AppEvent.startListen true 16000,
        AppEvent.micFrame (List.replicate 80 0) 0,
        AppEvent.micFrame (List.replicate 80 (1 / 2)) (1 / 2),
        AppEvent.micFrame (List.replicate 80 0) 0]
        ).mic.ctxSampleRate = 16000
    ∧ 240 * 1000 < 300 * 16000 := by
  decide

/-- C7, amended: finalization emits an utterance exactly when a callback
is registered and the buffer is non-empty — regardless of the buffered
duration (no minimum-duration discard exists) — and resets the buffer
exactly in that case. -/
theorem finializeUtterance_emits_iff_nonempty (cb : Bool) (mic : MicState) :
    ((finializeUtterance cb mic).1.isSome
      ↔ (cb = true ∧ mic.buffer.chunks ≠ []))
    ∧ (finializeUtterance cb mic).2.buffer.chunks
      = (if cb = true ∧ mic.buffer.chunks ≠ []
         then [] else mic.buffer.chunks) := by
  by_cases hcb : cb = true
  · by_cases hch : mic.buffer.chunks = []
    · simp [finializeUtterance, hcb, hch, emptyBuffer]
    · simp [finializeUtterance, hcb, hch, emptyBuffer,
        List.isEmpty_iff]
  · simp [finializeUtterance, hcb, emptyBuffer]

/-- The WAV header always occupies exactly 44 bytes. -/
theorem wavHeader_length (n rate ch bd : Nat) :
    (wavHeader n rate ch bd).length = 44 := by
  simp [wavHeader, writeInt32LE, writeInt16LEInt]

/-- Dropping the 44 header bytes of an encoded WAV leaves the sample
payload. -/
theorem encodeWAV_drop_header (samples : List ℚ) (rate ch bd : Nat) :
    (encodeWAV samples rate ch bd).drop 44
      = (samples.map (fun s => writeInt16LEInt (sampleToInt16 s))).flatten := by
  unfold encodeWAV
  rw [← wavHeader_length samples.length rate ch bd, List.drop_left]

/-- Dropping `2 * i` payload bytes skips the first `i` encoded samples. -/
theorem flatten_map_writeInt16_drop (l : List ℚ) :
    ∀ i : Nat,
      ((l.map (fun s => writeInt16LEInt (sampleToInt16 s))).flatten).drop (2 * i)
        = ((l.drop i).map (fun s => writeInt16LEInt (sampleToInt16 s))).flatten := by
  induction l with
  | nil => intro i; simp
  | cons a l ih =>
    intro i
    cases i with
    | zero => simp
    | succ n =>
      rw [show 2 * (n + 1) = 2 * n + 1 + 1 from by ring]
      simp only [List.map_cons, List.flatten_cons, writeInt16LEInt,
        List.cons_append, List.nil_append, List.drop_succ_cons]
      exact ih n

/-- The clamped full-scale positive sample maps to
`trunc(0.8 * 0x7fff) = 26213`. -/
theorem sampleToInt16_one : sampleToInt16 1 = 26213 := by
  simp only [sampleToInt16, truncQ]
  norm_num [max_def, min_def]

/-- The clamped full-scale negative sample maps to
`trunc(-0.8 * 0x8000) = -26214`. -/
theorem sampleToInt16_neg_one : sampleToInt16 (-1) = -26214 := by
  simp only [sampleToInt16, truncQ]
  norm_num [max_def, min_def]

/-- C5, counterexample: the payload bytes for the single clamped sample
`1.0` are `[101, 102]` (little-endian 26213 = trunc(0.8 · 0x7fff), the
`volume = 0.8` attenuation applied after clamping), not the
`[255, 127]` (0x7fff) the claim requires. -/
theorem encodeWAV_full_scale_not_0x7fff :
    (encodeWAV [1] 16000 1 16).drop 44 = [101, 102]
    ∧ [(101 : Nat), 102] ≠ [255, 127] := by
  constructor
  · rw [encodeWAV_drop_header]
    simp only [List.map_cons, List.map_nil, List.flatten_cons,
      List.flatten_nil, List.append_nil]
    rw [sampleToInt16_one]
    decide
  · decide

/-- C5, amended: the encoder clamps each sample to [-1, 1], attenuates
by the fixed `volume = 0.8`, scales to the 16-bit range and truncates —
so clamped 1.0 maps to 26213 and clamped -1.0 to -26214 — and writes the
two little-endian bytes of that value into the payload after the 44-byte
header (sample `i` at offsets `44 + 2i`, `45 + 2i`). -/
theorem encodeWAV_payload_bytes (samples : List ℚ) (rate : Nat) (i : Nat)
    (h : i < samples.length) :
    ((encodeWAV samples rate 1 16).drop (44 + 2 * i)).take 2
      = writeInt16LEInt (sampleToInt16 (samples.getD i 0))
    ∧ sampleToInt16 1 = 26213 ∧ sampleToInt16 (-1) = -26214 := by
  refine ⟨?_, sampleToInt16_one, sampleToInt16_neg_one⟩
  rw [← List.drop_drop, encodeWAV_drop_header,
    flatten_map_writeInt16_drop, List.drop_eq_getElem_cons h,
    List.getD_eq_getElem samples 0 h]
  rfl

/-- Witness for C5 (amended) at the two-sample input `[1, -1]`. -/
theorem encodeWAV_payload_bytes_witness :
    ((encodeWAV [1, -1] 16000 1 16).drop (44 + 2 * 0)).take 2
      = writeInt16LEInt (sampleToInt16 (([1, -1] : List ℚ).getD 0 0))
    ∧ sampleToInt16 1 = 26213 ∧ sampleToInt16 (-1) = -26214 :=
  encodeWAV_payload_bytes [1, -1] 16000 0 (by simp)

end VoiceApp
